import Mathlib

/-!
Verification of the handle registry and callback dispatch layer of
`pjsip-apps/src/python/pjsua.py` (the Python wrapper over the native
pjsua engine).

The embedding models:
  * the Python `dict` operations used by the `Lib` bookkeeping methods
    (association lists with overwrite-on-insert semantics);
  * wrapper objects (`Call`, `Account`, `Buddy`) as records carrying a
    distinct identity tag `oid` (Python object identity: none of these
    classes defines `__eq__`, so `==` compares identity), the engine
    handle `id` (attribute `_id`), and the installed callback's
    back-reference (`cb`, modelling `_cb.account` / `_cb.call` /
    `_cb.buddy` as the `oid` of the object the callback was constructed
    with, or `none` for a callback constructed with `None`);
  * the `Lib` registry state: the dictionaries `call`, `account`,
    `buddy` (handle-keyed) and `buddy_by_uri` (keyed by `(user, host)`
    tuples -- and, in `_disassociate_buddy`, addressed by a full URI
    string, hence the sum type `UriKey`);
  * the `Lib._cb_on_*` dispatcher methods, whose routing decision (which
    object's installed handler receives the notification, or whether the
    dispatch raises) is recorded in small result inductives.
-/

set_option autoImplicit false
set_option linter.unusedVariables false

namespace Pjsua

/-! ## Python dict model (association lists, first key occurrence wins) -/

/-- Lookup in a Python dict: `d.has_key(k) and d[k] or None` for the
truthy values stored here (wrapper objects are always truthy). -/
def dictLookup {κ α : Type} [DecidableEq κ] : List (κ × α) → κ → Option α
  | [], _ => none
  | (k1, v) :: tl, k => if k1 = k then some v else dictLookup tl k

/-- `d[k] = v`: overwrite the entry for `k` if present, else append. -/
def dictInsert {κ α : Type} [DecidableEq κ] : List (κ × α) → κ → α → List (κ × α)
  | [], k, v => [(k, v)]
  | (k1, v1) :: tl, k, v =>
    if k1 = k then (k, v) :: tl else (k1, v1) :: dictInsert tl k v

/-- `del d[k]` (always guarded by a presence check in the source). -/
def dictErase {κ α : Type} [DecidableEq κ] : List (κ × α) → κ → List (κ × α)
  | [], _ => []
  | (k1, v1) :: tl, k => if k1 = k then tl else (k1, v1) :: dictErase tl k

/-- `d.has_key(k)`. -/
def dictHasKey {κ α : Type} [DecidableEq κ] (m : List (κ × α)) (k : κ) : Bool :=
  (dictLookup m k).isSome

/-! ## Wrapper objects -/

/-- A wrapper object (`Call`, `Account` or `Buddy`): `oid` is its Python
identity, `id` its engine handle (`_id`), and `cb` the back-reference
held by its installed callback object (`some oid` for a callback
constructed with the object itself, `none` for one constructed with
`None`, as in the class-level default `AccountCallback(None)`). -/
structure WObj where
  oid : Nat
  id : Int
  cb : Option Nat
deriving DecidableEq, Repr

/-- Keys of the `buddy_by_uri` dictionary. `_associate_buddy` inserts
under a `(user, host)` tuple; `_disassociate_buddy` deletes under the
buddy's full URI string. Python allows the mixed key types, so the key
type is their sum. -/
inductive UriKey where
  | pair (user host : String)
  | raw (uri : String)
deriving DecidableEq, Repr

/-- `UriKey.pair` keys, as produced by `_associate_buddy`. -/
def UriKey.isPair : UriKey → Prop
  | .pair _ _ => True
  | .raw _ => False

instance : DecidablePred UriKey.isPair := by
  intro k
  cases k with
  | pair u h => exact .isTrue trivial
  | raw u => exact .isFalse id

/-! ## URI parsing

`SIPUri.decode` delegates to the native `_pjsua.parse_simple_uri`,
which is part of the C extension module and absent from the sources
under study. It is modelled from the spec below. -/

/-- Split a character list at every occurrence of `c`. -/
def splitOnChar (c : Char) : List Char → List (List Char)
  | [] => [[]]
  | a :: rest =>
    let r := splitOnChar c rest
    if a = c then [] :: r
    else
      match r with
      | h :: t => (a :: h) :: t
      | [] => [[a]]

/-- Split at the first occurrence of `c`, if any. -/
def splitFirst (c : Char) : List Char → Option (List Char × List Char)
  | [] => none
  | a :: rest =>
    if a = c then some ([], rest)
    else (splitFirst c rest).map (fun p => (a :: p.1, p.2))

/-- Drop an RFC 3261 display name: keep the part between `<` and `>`
when angle brackets are present. -/
def stripDisplayName (s : List Char) : List Char :=
  match splitOnChar '<' s with
  | _ :: inner :: _ => (splitOnChar '>' inner).headD inner
  | _ => s

/-- Decimal value of a digit run (for the port number). -/
def decimalValue (cs : List Char) : Nat :=
  cs.foldl (fun acc c => if c.isDigit then acc * 10 + (c.toNat - 48) else acc) 0

/-- The `transport=` parameter value of one `;`-separated parameter. -/
def transportOfParam (it : List Char) : Option (List Char) :=
  if it.take 10 = "transport=".data then some (it.drop 10) else none

/-- Result of `_pjsua.parse_simple_uri`, the tuple bound by
`SIPUri.decode` to `(scheme, user, host, port, transport)`. -/
structure ParsedUri where
  scheme : String
  user : String
  host : String
  port : Nat
  transport : String
deriving DecidableEq, Repr

/-- Modelled from the spec: `_pjsua.parse_simple_uri` lives in the
native extension module, not in the Python sources. Per the spec, buddy
URI lookup "parses `uri` into (user-part, host-part)" and matching
ignores "port/transport/display-name parameters". The model strips an
optional display name, splits off the scheme at the first `:`, the user
part at the first `@`, the parameter list at the first `;`, and the
port at the first `:` of the host part. -/
def parse_simple_uri (uri : String) : ParsedUri :=
  let s := stripDisplayName uri.data
  let (scheme, rest) := (splitFirst ':' s).getD ([], s)
  let (user, hostport) :=
    match splitFirst '@' rest with
    | some (u, hp) => (u, hp)
    | none => ([], rest)
  let (hp, params) :=
    match splitFirst ';' hostport with
    | some (h, ps) => (h, ps)
    | none => (hostport, [])
  let (host, portcs) :=
    match splitFirst ':' hp with
    | some (h, p) => (h, p)
    | none => (hp, [])
  let transport :=
    match (splitOnChar ';' params).filterMap transportOfParam with
    | t :: _ => t
    | [] => []
  { scheme := String.mk scheme
    user := String.mk user
    host := String.mk host
    port := decimalValue portcs
    transport := String.mk transport }

/-- `SIPUri(uri)` / `SIPUri.decode`: stores the tuple returned by
`_pjsua.parse_simple_uri` into the object's fields. -/
def SIPUri.decode (uri : String) : ParsedUri :=
  parse_simple_uri uri

/-! ## The Lib registry state -/

/-- The bookkeeping dictionaries of `Lib` (class attributes `call`,
`account`, `buddy`, `buddy_by_uri`; all start empty). -/
structure RegState where
  call : List (Int × WObj)
  account : List (Int × WObj)
  buddy : List (Int × WObj)
  buddy_by_uri : List (UriKey × WObj)
deriving DecidableEq, Repr

/-- A fresh `Lib`: all dictionaries empty. -/
def emptyReg : RegState := ⟨[], [], [], []⟩

/-- `Lib._associate_call(call_id, call)`: `self.call[call_id] = call`. -/
def associate_call (st : RegState) (call_id : Int) (call : WObj) : RegState :=
  { st with call := dictInsert st.call call_id call }

/-- `Lib._lookup_call(call_id)`. -/
def lookup_call (st : RegState) (call_id : Int) : Option WObj :=
  dictLookup st.call call_id

/-- `Lib._disassociate_call(call)`: delete only when the mapped object
is identity-equal to the argument. -/
def disassociate_call (st : RegState) (call : WObj) : RegState :=
  if lookup_call st call.id = some call then
    { st with call := dictErase st.call call.id }
  else st

/-- `Lib._associate_account(acc_id, account)`. -/
def associate_account (st : RegState) (acc_id : Int) (account : WObj) : RegState :=
  { st with account := dictInsert st.account acc_id account }

/-- `Lib._lookup_account(acc_id)`. -/
def lookup_account (st : RegState) (acc_id : Int) : Option WObj :=
  dictLookup st.account acc_id

/-- `Lib._disassociate_account(account)`. -/
def disassociate_account (st : RegState) (account : WObj) : RegState :=
  if lookup_account st account.id = some account then
    { st with account := dictErase st.account account.id }
  else st

/-- `Lib._associate_buddy(buddy_id, buddy)`: inserts into the primary
map and, under the `(user, host)` tuple of the buddy's parsed URI
(`buddy.info().uri`, passed here as `buddy_uri`), into `buddy_by_uri`. -/
def associate_buddy (st : RegState) (buddy_id : Int) (buddy : WObj)
    (buddy_uri : String) : RegState :=
  let st1 := { st with buddy := dictInsert st.buddy buddy_id buddy }
  let u := SIPUri.decode buddy_uri
  { st1 with buddy_by_uri := dictInsert st1.buddy_by_uri (.pair u.user u.host) buddy }

/-- `Lib._lookup_buddy(buddy_id, uri=None)`: primary lookup by handle;
only when that misses and `uri` is a non-empty string (`if uri and not
buddy`), a secondary lookup under the parsed `(user, host)` tuple. -/
def lookup_buddy (st : RegState) (buddy_id : Int) (uri : Option String) : Option WObj :=
  let buddy := dictLookup st.buddy buddy_id
  match buddy, uri with
  | none, some u =>
    if u = "" then none
    else
      let su := SIPUri.decode u
      dictLookup st.buddy_by_uri (.pair su.user su.host)
  | b, _ => b

/-- `Lib._disassociate_buddy(buddy)`: identity-guarded delete from the
primary map, then `del self.buddy_by_uri[buddy.info().uri]` guarded by
`has_key` -- note the key used here is the full URI *string*, not the
`(user, host)` tuple `_associate_buddy` inserted under. -/
def disassociate_buddy (st : RegState) (buddy : WObj) (buddy_uri : String) : RegState :=
  let st1 :=
    if lookup_buddy st buddy.id none = some buddy then
      { st with buddy := dictErase st.buddy buddy.id }
    else st
  if dictHasKey st1.buddy_by_uri (.raw buddy_uri) then
    { st1 with buddy_by_uri := dictErase st1.buddy_by_uri (.raw buddy_uri) }
  else st1

/-! ## Dispatchers

Each `Lib._cb_on_*` method looks up the target wrapper object and
forwards the notification to that object's currently installed handler
(`target._cb.on_*`). The handlers themselves are application code; the
embedding records the routing decision: which object's handler was
invoked (carrying the object), or that no handler ran, or that the
dispatch raised. -/

/-- Routing outcome of `_cb_on_pager` / `_cb_on_pager_status` /
`_cb_on_typing`. `attrErrorNoneAccount` records the `AttributeError`
raised by the final fallback `acc._cb.on_*(...)` when
`_lookup_account(acc_id)` returned `None`. -/
inductive PagerResult where
  | toCall (call : WObj)
  | toBuddy (buddy : WObj)
  | toAccount (acct : WObj)
  | attrErrorNoneAccount
deriving DecidableEq, Repr

/-- `Lib._cb_on_pager(call_id, from_uri, to_uri, contact, mime_type,
body, acc_id)`. Note the source's guard: the call lookup runs only when
`call_id == -1`. -/
def cb_on_pager (st : RegState) (call_id : Int) (from_uri : String)
    (to_uri contact mime_type body : String) (acc_id : Int) : PagerResult :=
  let call := if call_id = -1 then lookup_call st call_id else none
  match call with
  | some c => .toCall c
  | none =>
    let acc := lookup_account st acc_id
    let buddy := lookup_buddy st (-1) (some from_uri)
    match buddy with
    | some b => .toBuddy b
    | none =>
      match acc with
      | some a => .toAccount a
      | none => .attrErrorNoneAccount

/-- `Lib._cb_on_pager_status(call_id, to_uri, body, user_data, code,
reason, acc_id)`: same routing shape as `_cb_on_pager`, with the buddy
fallback keyed by `to_uri`. -/
def cb_on_pager_status (st : RegState) (call_id : Int) (to_uri : String)
    (body user_data : String) (code : Int) (reason : String)
    (acc_id : Int) : PagerResult :=
  let call := if call_id = -1 then lookup_call st call_id else none
  match call with
  | some c => .toCall c
  | none =>
    let acc := lookup_account st acc_id
    let buddy := lookup_buddy st (-1) (some to_uri)
    match buddy with
    | some b => .toBuddy b
    | none =>
      match acc with
      | some a => .toAccount a
      | none => .attrErrorNoneAccount

/-- `Lib._cb_on_typing(call_id, from_uri, to_uri, contact, is_typing,
acc_id)`: same routing shape as `_cb_on_pager`. -/
def cb_on_typing (st : RegState) (call_id : Int) (from_uri : String)
    (to_uri contact : String) ( is_typing : Bool) (acc_id : Int) : PagerResult :=
  let call := if call_id = -1 then lookup_call st call_id else none
  match call with
  | some c => .toCall c
  | none =>
    let acc := lookup_account st acc_id
    let buddy := lookup_buddy st (-1) (some from_uri)
    match buddy with
    | some b => .toBuddy b
    | none =>
      match acc with
      | some a => .toAccount a
      | none => .attrErrorNoneAccount

/-- Outcome of a call-scoped dispatcher that must return a value to
the engine: either the registered call's handler ran (its return value
is application-determined), or no call was found and the dispatcher
itself returned `v`. -/
inductive CallCbResult (α : Type) where
  | handled (call : WObj)
  | engineDefault (v : α)
deriving DecidableEq, Repr

/-- `Lib._cb_on_call_transfer_request(call_id, dst, code)`: forwards to
the call's handler when registered; otherwise returns the literal
status 603. -/
def cb_on_call_transfer_request (st : RegState) (call_id : Int)
    (dst : String) (code : Int) : CallCbResult Int :=
  match lookup_call st call_id with
  | some c => .handled c
  | none => .engineDefault 603

/-- `Lib._cb_on_call_transfer_status(call_id, code, text, final, cont)`:
forwards to the call's handler when registered; otherwise returns the
incoming `cont` flag unchanged. -/
def cb_on_call_transfer_status (st : RegState) (call_id code : Int)
    (text : String) (final cont : Bool) : CallCbResult Bool :=
  match lookup_call st call_id with
  | some c => .handled c
  | none => .engineDefault cont

/-- `Lib._cb_on_call_replace_request(call_id, rdata, code, reason)`:
forwards to the call's handler when registered; otherwise returns the
incoming `(code, reason)` pair unchanged. -/
def cb_on_call_replace_request (st : RegState) (call_id : Int)
    (rdata : String) (code : Int) (reason : String) : CallCbResult (Int × String) :=
  match lookup_call st call_id with
  | some c => .handled c
  | none => .engineDefault (code, reason)

/-- `Lib._cb_on_reg_state(acc_id)`: invokes `acc._cb.on_reg_state()` on
the registered account, if any; returns the account whose installed
handler was invoked (`none` = notification dropped). -/
def cb_on_reg_state (st : RegState) (acc_id : Int) : Option WObj :=
  lookup_account st acc_id

/-! ## Object construction and destruction -/

/-- The class-level default handler of `Account`: the class attribute
`_cb = AccountCallback(None)` -- a callback whose back-reference
`account` is `None`, shared by all instances that never assign the
instance attribute. -/
def Account.classDefaultCb : Option Nat := none

/-- Embedding of `Account.__init__(lib, id)` (constructing the wrapper
whose identity is `oid`). The source's first statement is
`_cb = AccountCallback(self)`, which binds a *local* name `_cb` and is
then discarded; the instance attribute `self._cb` is never assigned, so
attribute lookup keeps yielding the class-level `AccountCallback(None)`.
The constructor then registers the account under `acc_id`. -/
def Account.init (st : RegState) (acc_id : Int) (oid : Nat) : WObj × RegState :=
  let _cb : Option Nat := some oid
  let self : WObj := ⟨oid, acc_id, Account.classDefaultCb⟩
  (self, associate_account st acc_id self)

/-- Embedding of `Call.__init__(lib, call_id)`: `self._cb =
CallCallback(self)` *is* assigned to the instance here, then the call is
registered. -/
def Call.init (st : RegState) (call_id : Int) (oid : Nat) : WObj × RegState :=
  let self : WObj := ⟨oid, call_id, some oid⟩
  (self, associate_call st call_id self)

/-- Outcome of a `__del__` embedding: the (unchanged) state together
with a raised `TypeError`, or the state `__del__` leaves behind. -/
inductive DelResult where
  | raisedTypeError (st : RegState)
  | returned (st : RegState)
deriving DecidableEq, Repr

/-- Embedding of `Call.__del__`: it executes
`self._lib._disassociate_call(self._id, self)`, a *two*-argument
invocation of `Lib._disassociate_call(self, call)`, which accepts a
single argument besides `self`. Python raises
`TypeError: _disassociate_call() takes exactly 2 arguments (3 given)`
before the method body runs, so the registry is not modified. -/
def Call.del (st : RegState) (call : WObj) : DelResult :=
  .raisedTypeError st

/-- Embedding of `Account.__del__`: likewise executes
`self._lib._disassociate_account(self._id, self)`, a two-argument
invocation of the one-argument `Lib._disassociate_account(self,
account)`; Python raises `TypeError` and the registry is not
modified. -/
def Account.del (st : RegState) (account : WObj) : DelResult :=
  .raisedTypeError st

/-- Embedding of `Buddy.__del__`: `self._lib._disassociate_buddy(self)`,
a correct one-argument invocation. -/
def Buddy.del (st : RegState) (buddy : WObj) (buddy_uri : String) : DelResult :=
  .returned (disassociate_buddy st buddy buddy_uri)

/-! ## Kind-indexed registry operations (for the registry claims) -/

/-- The three handle-keyed registries. -/
inductive Kind where
  | call
  | account
  | buddy
deriving DecidableEq, Repr

/-- The handle-to-object dictionary of a kind. -/
def kindMap : Kind → RegState → List (Int × WObj)
  | .call, st => st.call
  | .account, st => st.account
  | .buddy, st => st.buddy

/-- `lookup(kind, handle)`: `Lib._lookup_call` / `_lookup_account` /
`_lookup_buddy` (primary, handle-keyed lookup). -/
def kindLookup (k : Kind) (st : RegState) (h : Int) : Option WObj :=
  dictLookup (kindMap k st) h

/-- A registry operation: `reg` is `Lib._associate_*` (the `uri`
argument is the buddy's `info().uri`, ignored by the other kinds) and
`unreg` is `Lib._disassociate_*`. -/
inductive RegOp where
  | reg (h : Int) (o : WObj) (uri : String)
  | unreg (o : WObj) (uri : String)
deriving DecidableEq, Repr

/-- Apply one registry operation for kind `k`. -/
def applyOp (k : Kind) (st : RegState) : RegOp → RegState
  | .reg h o uri =>
    match k with
    | .call => associate_call st h o
    | .account => associate_account st h o
    | .buddy => associate_buddy st h o uri
  | .unreg o uri =>
    match k with
    | .call => disassociate_call st o
    | .account => disassociate_account st o
    | .buddy => disassociate_buddy st o uri

/-- Apply a sequence of registry operations for kind `k`. -/
def applyOps (k : Kind) (st : RegState) (ops : List RegOp) : RegState :=
  ops.foldl (applyOp k) st

/-- Whether an operation can affect the registration of object `o`
under handle `h`: a register under the same handle, or an unregister of
that very object (an unregister of a *different* object is harmless by
the identity guard). -/
def opTouches (h : Int) (o : WObj) : RegOp → Bool
  | .reg h2 _ _ => h2 = h
  | .unreg o2 _ => o2 = o

/-! ## Dictionary lemmas -/

theorem dictLookup_insert_self {κ α : Type} [DecidableEq κ] (m : List (κ × α)) (k : κ) (v : α) :
    dictLookup (dictInsert m k v) k = some v := by
  induction m with
  | nil => simp [dictInsert, dictLookup]
  | cons hd tl ih =>
    obtain ⟨k1, v1⟩ := hd
    by_cases hk : k1 = k
    · subst hk
      simp [dictInsert, dictLookup]
    · simp [dictInsert, dictLookup, hk, ih]

theorem dictLookup_eq_none_of_not_mem {κ α : Type} [DecidableEq κ] (m : List (κ × α)) (k : κ)
    (h : k ∉ m.map Prod.fst) : dictLookup m k = none := by
  induction m with
  | nil => rfl
  | cons hd tl ih =>
    obtain ⟨k1, v1⟩ := hd
    simp only [List.map_cons, List.mem_cons, not_or] at h
    have hne : k1 ≠ k := fun he => h.1 he.symm
    simpa [dictLookup, hne] using ih h.2

/-- `_lookup_buddy` with `uri=None` is the plain primary lookup. -/
theorem lookup_buddy_no_uri (st : RegState) (bid : Int) :
    lookup_buddy st bid none = dictLookup st.buddy bid := by
  unfold lookup_buddy
  cases dictLookup st.buddy bid <;> rfl

theorem applyOps_append (k : Kind) (st : RegState) (ops1 ops2 : List RegOp) :
    applyOps k st (ops1 ++ ops2) = applyOps k (applyOps k st ops1) ops2 := by
  simp [applyOps]

/-- Registering under handle `h` makes handle `h` resolve to the
registered object, for every kind. -/
theorem kindLookup_reg_self (k : Kind) (st : RegState) (h : Int) (o : WObj) (uri : String) :
    kindLookup k (applyOp k st (.reg h o uri)) h = some o := by
  cases k <;>
    simp [applyOp, kindLookup, kindMap, associate_call, associate_account,
      associate_buddy, dictLookup_insert_self]

theorem dictLookup_insert_ne {κ α : Type} [DecidableEq κ] (m : List (κ × α)) (k1 k : κ) (v : α)
    (hne : k1 ≠ k) : dictLookup (dictInsert m k1 v) k = dictLookup m k := by
  induction m with
  | nil => simp [dictInsert, dictLookup, hne]
  | cons hd tl ih =>
    obtain ⟨k2, v2⟩ := hd
    by_cases hk : k2 = k1
    · subst hk
      simp [dictInsert, dictLookup, hne]
    · simp [dictInsert, dictLookup, hk, ih]

theorem dictLookup_erase_ne {κ α : Type} [DecidableEq κ] (m : List (κ × α)) (k1 k : κ)
    (hne : k1 ≠ k) : dictLookup (dictErase m k1) k = dictLookup m k := by
  induction m with
  | nil => rfl
  | cons hd tl ih =>
    obtain ⟨k2, v2⟩ := hd
    by_cases hk : k2 = k1
    · subst hk
      simp [dictErase, dictLookup, hne]
    · simp [dictErase, dictLookup, hk, ih]

/-- The identity-guarded erase of `_disassociate_*` never disturbs the
entry of a different object `o`. -/
theorem dictLookup_guarded_erase {m : List (Int × WObj)} {h : Int} {o o2 : WObj}
    (hst : dictLookup m h = some o) (hne : o2 ≠ o) :
    dictLookup (if dictLookup m o2.id = some o2 then dictErase m o2.id else m) h = some o := by
  by_cases hg : dictLookup m o2.id = some o2
  · rw [if_pos hg]
    by_cases hid : o2.id = h
    · exfalso
      rw [hid, hst] at hg
      exact hne (Option.some.inj hg).symm
    · rw [dictLookup_erase_ne _ _ _ hid]
      exact hst
  · rw [if_neg hg]
    exact hst

theorem disassociate_call_call_field (st : RegState) (o2 : WObj) :
    (disassociate_call st o2).call
      = if dictLookup st.call o2.id = some o2 then dictErase st.call o2.id else st.call := by
  by_cases hg : dictLookup st.call o2.id = some o2 <;>
    simp [disassociate_call, lookup_call, hg]

theorem disassociate_account_account_field (st : RegState) (o2 : WObj) :
    (disassociate_account st o2).account
      = if dictLookup st.account o2.id = some o2 then dictErase st.account o2.id
        else st.account := by
  by_cases hg : dictLookup st.account o2.id = some o2 <;>
    simp [disassociate_account, lookup_account, hg]

theorem disassociate_buddy_buddy_field (st : RegState) (o2 : WObj) (u2 : String) :
    (disassociate_buddy st o2 u2).buddy
      = if dictLookup st.buddy o2.id = some o2 then dictErase st.buddy o2.id else st.buddy := by
  by_cases hg : dictLookup st.buddy o2.id = some o2 <;>
    simp [disassociate_buddy, lookup_buddy_no_uri, hg, apply_ite (RegState.buddy)]

/-- One registry operation that does not touch `(h, o)` preserves the
resolution of `h` to `o`. -/
theorem kindLookup_applyOp_untouched (k : Kind) (st : RegState) (h : Int) (o : WObj)
    (op : RegOp) (hst : kindLookup k st h = some o) (hop : opTouches h o op = false) :
    kindLookup k (applyOp k st op) h = some o := by
  cases op with
  | reg h2 o2 u2 =>
    have hne : h2 ≠ h := by simpa [opTouches] using hop
    cases k with
    | call =>
      have hst2 : dictLookup st.call h = some o := hst
      show dictLookup (associate_call st h2 o2).call h = some o
      rw [associate_call, dictLookup_insert_ne _ _ _ _ hne]
      exact hst2
    | account =>
      have hst2 : dictLookup st.account h = some o := hst
      show dictLookup (associate_account st h2 o2).account h = some o
      rw [associate_account, dictLookup_insert_ne _ _ _ _ hne]
      exact hst2
    | buddy =>
      have hst2 : dictLookup st.buddy h = some o := hst
      show dictLookup (associate_buddy st h2 o2 u2).buddy h = some o
      show dictLookup (dictInsert st.buddy h2 o2) h = some o
      rw [dictLookup_insert_ne _ _ _ _ hne]
      exact hst2
  | unreg o2 u2 =>
    have hne : o2 ≠ o := by simpa [opTouches] using hop
    cases k with
    | call =>
      have hst2 : dictLookup st.call h = some o := hst
      show dictLookup (disassociate_call st o2).call h = some o
      rw [disassociate_call_call_field]
      exact dictLookup_guarded_erase hst2 hne
    | account =>
      have hst2 : dictLookup st.account h = some o := hst
      show dictLookup (disassociate_account st o2).account h = some o
      rw [disassociate_account_account_field]
      exact dictLookup_guarded_erase hst2 hne
    | buddy =>
      have hst2 : dictLookup st.buddy h = some o := hst
      show dictLookup (disassociate_buddy st o2 u2).buddy h = some o
      rw [disassociate_buddy_buddy_field]
      exact dictLookup_guarded_erase hst2 hne

/-- A sequence of operations none of which touches `(h, o)` preserves
the resolution of `h` to `o`. -/
theorem kindLookup_stable (k : Kind) (h : Int) (o : WObj) (ops : List RegOp) :
    ∀ st : RegState, kindLookup k st h = some o →
      (∀ op ∈ ops, opTouches h o op = false) →
      kindLookup k (applyOps k st ops) h = some o := by
  induction ops with
  | nil => exact fun st hst _ => hst
  | cons op tl ih =>
    intro st hst hops
    have h1 := kindLookup_applyOp_untouched k st h o op hst (hops op (by simp))
    exact ih (applyOp k st op) h1 (fun op2 hm => hops op2 (by simp [hm]))

/-! ## Claim theorems -/

/-- C4: for every kind (call, account, buddy) and handle, after any
sequence of registry operations containing `register(k, h, obj)` and
followed only by operations that neither re-register handle `h` nor
unregister `obj` itself, `lookup(k, h)` returns exactly `obj` --
registration is last-write-wins and survives unregistration of other
objects; and lookup of a handle that is not a key of the kind's map
returns `none` (lookup is a total function, so it cannot raise). -/
theorem registry_last_write_wins :
    (∀ (k : Kind) (st : RegState) (ops1 ops2 : List RegOp) (h : Int) (o : WObj) (uri : String),
      (∀ op ∈ ops2, opTouches h o op = false) →
      kindLookup k (applyOps k st (ops1 ++ RegOp.reg h o uri :: ops2)) h = some o)
    ∧ (∀ (k : Kind) (st : RegState) (h : Int),
      h ∉ (kindMap k st).map Prod.fst → kindLookup k st h = none) := by
  constructor
  · intro k st ops1 ops2 h o uri hops2
    have hsplit : applyOps k st (ops1 ++ RegOp.reg h o uri :: ops2)
        = applyOps k (applyOp k (applyOps k st ops1) (.reg h o uri)) ops2 := by
      rw [applyOps_append]
      rfl
    rw [hsplit]
    exact kindLookup_stable k h o ops2 _
      (kindLookup_reg_self k (applyOps k st ops1) h o uri) hops2
  · intro k st h hmem
    exact dictLookup_eq_none_of_not_mem _ _ hmem

/-- Witness for C4: a concrete run -- register twice under handle 1
(last write wins), then unregister an unrelated object (a no-op for
handle 1); and look up the never-registered handle 5. -/
theorem registry_last_write_wins_witness :
    kindLookup .call (applyOps .call emptyReg
        ([RegOp.reg 1 ⟨1, 1, some 1⟩ ""]
          ++ RegOp.reg 1 ⟨2, 1, some 2⟩ "" :: [RegOp.unreg ⟨7, 2, none⟩ ""])) 1
      = some ⟨2, 1, some 2⟩
    ∧ kindLookup .account emptyReg 5 = none :=
  ⟨registry_last_write_wins.1 .call emptyReg [RegOp.reg 1 ⟨1, 1, some 1⟩ ""]
      [RegOp.unreg ⟨7, 2, none⟩ ""] 1 ⟨2, 1, some 2⟩ "" (by decide),
   registry_last_write_wins.2 .account emptyReg 5 (by decide)⟩

/-- C5: for every kind and objects `A ≠ B` (distinct Python identity)
sharing handle `h`, after `register(k, h, A); register(k, h, B)`,
`unregister(k, A)` leaves the kind's handle map unchanged -- the
identity guard `lookup(obj.id) == obj` fails because the map holds `B`
-- and `lookup(k, h)` still returns `B`. -/
theorem unregister_identity_guard (k : Kind) (st st1 : RegState) (h : Int)
    (A B : WObj) (u1 u2 uA : String)
    (hA : A.id = h) (hAB : A ≠ B)
    (hst1 : st1 = applyOp k (applyOp k st (.reg h A u1)) (.reg h B u2)) :
    kindMap k (applyOp k st1 (.unreg A uA)) = kindMap k st1
    ∧ kindLookup k (applyOp k st1 (.unreg A uA)) h = some B := by
  have hlook : dictLookup (kindMap k st1) A.id = some B := by
    rw [hA, hst1]
    have := kindLookup_reg_self k (applyOp k st (.reg h A u1)) h B u2
    simpa [kindLookup] using this
  have hguard : ¬ dictLookup (kindMap k st1) A.id = some A := by
    rw [hlook]
    intro hcon
    exact hAB (Option.some.inj hcon).symm
  have hmap : kindMap k (applyOp k st1 (.unreg A uA)) = kindMap k st1 := by
    cases k with
    | call =>
      simp only [applyOp, disassociate_call, lookup_call]
      rw [if_neg (by simpa [kindMap] using hguard)]
    | account =>
      simp only [applyOp, disassociate_account, lookup_account]
      rw [if_neg (by simpa [kindMap] using hguard)]
    | buddy =>
      have hg : ¬ dictLookup st1.buddy A.id = some A := by simpa [kindMap] using hguard
      simp only [applyOp, disassociate_buddy, lookup_buddy_no_uri, if_neg hg]
      cases hkey : dictHasKey st1.buddy_by_uri (.raw uA) <;> simp [kindMap, hkey]
  refine ⟨hmap, ?_⟩
  rw [kindLookup, hmap, ← hA, hlook]

/-- Witness for C5: the regression scenario from the spec -- register
`A` at handle 1, register `B` at handle 1, unregister `A`; the lookup
still returns `B`. -/
theorem unregister_identity_guard_witness :
    kindMap .call (applyOp .call
        (applyOp .call (applyOp .call emptyReg (.reg 1 ⟨1, 1, some 1⟩ ""))
          (.reg 1 ⟨2, 1, some 2⟩ "")) (.unreg ⟨1, 1, some 1⟩ ""))
      = kindMap .call (applyOp .call (applyOp .call emptyReg (.reg 1 ⟨1, 1, some 1⟩ ""))
          (.reg 1 ⟨2, 1, some 2⟩ ""))
    ∧ kindLookup .call (applyOp .call
        (applyOp .call (applyOp .call emptyReg (.reg 1 ⟨1, 1, some 1⟩ ""))
          (.reg 1 ⟨2, 1, some 2⟩ "")) (.unreg ⟨1, 1, some 1⟩ "")) 1
      = some ⟨2, 1, some 2⟩ :=
  unregister_identity_guard .call emptyReg _ 1 ⟨1, 1, some 1⟩ ⟨2, 1, some 2⟩ "" "" ""
    rfl (by decide) rfl

/-- C10: immediately after `Account.__init__` (and before any
`set_callback`), the installed handler is the class-level shared
default `AccountCallback(None)` -- the constructor binds the fresh
`AccountCallback(self)` to a local name, never to `self._cb` -- so its
back-reference is `None`, not the account; and a registration-state
dispatch to the newly constructed account invokes exactly that
unbound handler. -/
theorem account_init_keeps_class_default_cb (st : RegState) (acc_id : Int) (oid : Nat) :
    ((Account.init st acc_id oid).1).cb = Account.classDefaultCb
    ∧ ((Account.init st acc_id oid).1).cb = none
    ∧ ((Account.init st acc_id oid).1).cb ≠ some ((Account.init st acc_id oid).1).oid
    ∧ cb_on_reg_state (Account.init st acc_id oid).2 acc_id = some (Account.init st acc_id oid).1 := by
  refine ⟨rfl, rfl, by simp [Account.init, Account.classDefaultCb], ?_⟩
  simp [Account.init, cb_on_reg_state, lookup_account, associate_account,
    dictLookup_insert_self]

/-- C1 (code defect, concrete run): a pager and a typing notification
arrive with the real call handle 7 whose `Call` object IS registered,
yet neither `_cb_on_pager` nor `_cb_on_typing` routes to the call's
handler -- their guard `if call_id == -1` skips the call lookup for
every non-sentinel handle, so the notification falls through to the
account fallback. -/
theorem pager_and_typing_never_route_to_registered_call :
    lookup_call (associate_account (associate_call emptyReg 7 ⟨1, 7, some 1⟩) 0 ⟨2, 0, none⟩) 7
      = some ⟨1, 7, some 1⟩
    ∧ cb_on_pager (associate_account (associate_call emptyReg 7 ⟨1, 7, some 1⟩) 0 ⟨2, 0, none⟩)
        7 "sip:bob@example.com" "sip:alice@example.com" "sip:bob@example.com" "text/plain" "hi" 0
      = .toAccount ⟨2, 0, none⟩
    ∧ cb_on_pager (associate_account (associate_call emptyReg 7 ⟨1, 7, some 1⟩) 0 ⟨2, 0, none⟩)
        7 "sip:bob@example.com" "sip:alice@example.com" "sip:bob@example.com" "text/plain" "hi" 0
      ≠ .toCall ⟨1, 7, some 1⟩
    ∧ cb_on_typing (associate_account (associate_call emptyReg 7 ⟨1, 7, some 1⟩) 0 ⟨2, 0, none⟩)
        7 "sip:bob@example.com" "sip:alice@example.com" "sip:bob@example.com" true 0
      = .toAccount ⟨2, 0, none⟩ := by
  refine ⟨rfl, rfl, by decide, rfl⟩

/-- C2 counterexample: a pager notification with the sentinel call
handle, a sender URI matching no registered buddy, and an unregistered
owning account is not dropped: the fallback `acc._cb.on_pager(...)` is
an attribute access on `None`, i.e. the dispatcher raises
`AttributeError`. -/
theorem pager_dispatch_raises_on_unknown_account :
    cb_on_pager emptyReg (-1) "sip:carol@example.org" "sip:me@example.org" ""
      "text/plain" "hi" 9 = .attrErrorNoneAccount := rfl

/-- C2 (amended): the message/typing dispatch path raises precisely
when no call context applies, no buddy matches the URI, and the owning
account handle is unregistered; in particular, whenever the account
resolves, `_cb_on_pager`, `_cb_on_pager_status` and `_cb_on_typing`
complete without raising, but a notification that resolves to neither
buddy nor account raises `AttributeError` instead of being dropped. -/
theorem pager_dispatch_raises_iff_nothing_resolves (st : RegState) (call_id : Int)
    (from_uri to_uri contact mime_type body user_data reason : String)
    (code : Int) ( is_typing : Bool) (acc_id : Int) :
    (cb_on_pager st call_id from_uri to_uri contact mime_type body acc_id
        = .attrErrorNoneAccount
      ↔ (if call_id = -1 then lookup_call st call_id else none) = none
        ∧ lookup_buddy st (-1) (some from_uri) = none
        ∧ lookup_account st acc_id = none)
    ∧ (cb_on_pager_status st call_id to_uri body user_data code reason acc_id
        = .attrErrorNoneAccount
      ↔ (if call_id = -1 then lookup_call st call_id else none) = none
        ∧ lookup_buddy st (-1) (some to_uri) = none
        ∧ lookup_account st acc_id = none)
    ∧ (cb_on_typing st call_id from_uri to_uri contact is_typing acc_id
        = .attrErrorNoneAccount
      ↔ (if call_id = -1 then lookup_call st call_id else none) = none
        ∧ lookup_buddy st (-1) (some from_uri) = none
        ∧ lookup_account st acc_id = none) := by
  refine ⟨?_, ?_, ?_⟩
  · simp only [cb_on_pager]
    cases hc : (if call_id = -1 then lookup_call st call_id else none) with
    | some c => simp
    | none =>
      cases hb : lookup_buddy st (-1) (some from_uri) with
      | some b => simp
      | none =>
        cases ha : lookup_account st acc_id with
        | some a => simp
        | none => simp
  · simp only [cb_on_pager_status]
    cases hc : (if call_id = -1 then lookup_call st call_id else none) with
    | some c => simp
    | none =>
      cases hb : lookup_buddy st (-1) (some to_uri) with
      | some b => simp
      | none =>
        cases ha : lookup_account st acc_id with
        | some a => simp
        | none => simp
  · simp only [cb_on_typing]
    cases hc : (if call_id = -1 then lookup_call st call_id else none) with
    | some c => simp
    | none =>
      cases hb : lookup_buddy st (-1) (some from_uri) with
      | some b => simp
      | none =>
        cases ha : lookup_account st acc_id with
        | some a => simp
        | none => simp

/-- C3: with the sentinel call handle (and no call registered under
it), a pager notification whose sender URI matches a registered buddy
routes to that buddy's handler; the registered owning account's
handler is not invoked -- buddy resolution strictly precedes the
account fallback. -/
theorem pager_buddy_precedes_account (st : RegState)
    (from_uri to_uri contact mime_type body : String) (acc_id : Int) (b a : WObj)
    (hcall : lookup_call st (-1) = none)
    (hb : lookup_buddy st (-1) (some from_uri) = some b)
    (ha : lookup_account st acc_id = some a) :
    cb_on_pager st (-1) from_uri to_uri contact mime_type body acc_id = .toBuddy b
    ∧ ∀ x : WObj,
      cb_on_pager st (-1) from_uri to_uri contact mime_type body acc_id ≠ .toAccount x := by
  have hmain : cb_on_pager st (-1) from_uri to_uri contact mime_type body acc_id
      = .toBuddy b := by
    simp [cb_on_pager, hcall, hb]
  refine ⟨hmain, fun x hx => ?_⟩
  rw [hmain] at hx
  cases hx

/-- Witness for C3: buddy `bob@example.com` is registered and the
owning account is registered; the pager with matching sender URI and
sentinel call handle goes to the buddy. -/
theorem pager_buddy_precedes_account_witness :
    cb_on_pager
        (associate_account
          (associate_buddy emptyReg 2 ⟨3, 2, some 3⟩ "sip:bob@example.com") 0 ⟨2, 0, none⟩)
        (-1) "sip:bob@example.com" "sip:me@example.com" "" "text/plain" "hi" 0
      = .toBuddy ⟨3, 2, some 3⟩ :=
  (pager_buddy_precedes_account
    (associate_account
      (associate_buddy emptyReg 2 ⟨3, 2, some 3⟩ "sip:bob@example.com") 0 ⟨2, 0, none⟩)
    "sip:bob@example.com" "sip:me@example.com" ""
    "text/plain" "hi" 0 ⟨3, 2, some 3⟩ ⟨2, 0, none⟩ rfl rfl rfl).1

/-- C6 (code defect, concrete run): destroying a registered `Call` or
`Account` does NOT deregister it -- `__del__` passes two arguments to
the one-argument `_disassociate_call` / `_disassociate_account`, so it
raises `TypeError` and the registry entry survives: lookup still
returns the destroyed object. Only `Buddy.__del__` deregisters its
primary map entry. -/
theorem del_typeerror_keeps_registration :
    Call.del (associate_call emptyReg 4 ⟨1, 4, some 1⟩) ⟨1, 4, some 1⟩
      = .raisedTypeError (associate_call emptyReg 4 ⟨1, 4, some 1⟩)
    ∧ lookup_call (associate_call emptyReg 4 ⟨1, 4, some 1⟩) 4 = some ⟨1, 4, some 1⟩
    ∧ Account.del (associate_account emptyReg 2 ⟨2, 2, none⟩) ⟨2, 2, none⟩
      = .raisedTypeError (associate_account emptyReg 2 ⟨2, 2, none⟩)
    ∧ lookup_account (associate_account emptyReg 2 ⟨2, 2, none⟩) 2 = some ⟨2, 2, none⟩
    ∧ Buddy.del (associate_buddy emptyReg 3 ⟨3, 3, some 3⟩ "sip:bob@example.com")
        ⟨3, 3, some 3⟩ "sip:bob@example.com"
      = .returned ⟨[], [], [], [(.pair "bob" "example.com", ⟨3, 3, some 3⟩)]⟩
    ∧ lookup_buddy (⟨[], [], [], [(.pair "bob" "example.com", ⟨3, 3, some 3⟩)]⟩ : RegState)
        3 none = none :=
  ⟨rfl, rfl, rfl, rfl, rfl, rfl⟩

/-- C7 counterexample: on an unknown call, `_cb_on_call_transfer_request`
does not return the incoming code (202) unchanged -- it returns the
literal decline status 603. -/
theorem transfer_request_default_not_incoming_code :
    cb_on_call_transfer_request emptyReg 5 "sip:dst@example.com" 202
      = .engineDefault 603
    ∧ cb_on_call_transfer_request emptyReg 5 "sip:dst@example.com" 202
      ≠ .engineDefault 202 :=
  ⟨rfl, by decide⟩

/-- C7 (amended): on a call handle with no registered `Call`, the
call-scoped dispatchers invoke no handler; transfer-request returns the
fixed decline status 603 (not the incoming code), transfer-status
returns the incoming `cont` flag unchanged, and replace-request returns
the incoming `(code, reason)` pair unchanged. -/
theorem call_dispatch_engine_defaults (st : RegState) (call_id code : Int)
    (dst text rdata reason : String) (final cont : Bool)
    (h : lookup_call st call_id = none) :
    cb_on_call_transfer_request st call_id dst code = .engineDefault 603
    ∧ cb_on_call_transfer_status st call_id code text final cont = .engineDefault cont
    ∧ cb_on_call_replace_request st call_id rdata code reason = .engineDefault (code, reason)
    ∧ ∀ c : WObj, cb_on_call_transfer_request st call_id dst code ≠ .handled c := by
  refine ⟨?_, ?_, ?_, ?_⟩ <;>
    simp [cb_on_call_transfer_request, cb_on_call_transfer_status,
      cb_on_call_replace_request, h]

/-- Witness for C7: the three dispatchers on an empty registry. -/
theorem call_dispatch_engine_defaults_witness :
    cb_on_call_transfer_request emptyReg 9 "sip:dst@example.com" 486 = .engineDefault 603
    ∧ cb_on_call_transfer_status emptyReg 9 486 "Busy Here" true false = .engineDefault false
    ∧ cb_on_call_replace_request emptyReg 9 "rdata" 486 "Busy Here"
      = .engineDefault (486, "Busy Here") :=
  ⟨(call_dispatch_engine_defaults emptyReg 9 486 "sip:dst@example.com" "Busy Here" "rdata"
      "Busy Here" true false rfl).1,
   (call_dispatch_engine_defaults emptyReg 9 486 "sip:dst@example.com" "Busy Here" "rdata"
      "Busy Here" true false rfl).2.1,
   (call_dispatch_engine_defaults emptyReg 9 486 "sip:dst@example.com" "Busy Here" "rdata"
      "Busy Here" true false rfl).2.2.1⟩

/-- C8: secondary buddy lookup resolves on the (user, host) pair of the
parsed URI only -- two non-empty URIs whose parses agree on user and
host produce the same lookup result, whatever their port, transport
parameter or display name. -/
theorem buddy_uri_lookup_user_host_only (st : RegState) (bid : Int) (u1 u2 : String)
    (h1 : u1 ≠ "") (h2 : u2 ≠ "")
    (hu : (SIPUri.decode u1).user = (SIPUri.decode u2).user)
    (hh : (SIPUri.decode u1).host = (SIPUri.decode u2).host) :
    lookup_buddy st bid (some u1) = lookup_buddy st bid (some u2) := by
  unfold lookup_buddy
  cases dictLookup st.buddy bid with
  | some b => rfl
  | none => simp only [if_neg h1, if_neg h2, hu, hh]

/-- Witness for C8: with buddy `alice@example.com` registered, the
lookups for `sip:alice@example.com:5060;transport=tcp` and for
`sip:alice@example.com` agree, and resolve to the registered buddy. -/
theorem buddy_uri_lookup_user_host_only_witness :
    lookup_buddy (associate_buddy emptyReg 2 ⟨3, 2, some 3⟩ "sip:alice@example.com") (-1)
        (some "sip:alice@example.com:5060;transport=tcp")
      = lookup_buddy (associate_buddy emptyReg 2 ⟨3, 2, some 3⟩ "sip:alice@example.com") (-1)
        (some "sip:alice@example.com")
    ∧ lookup_buddy (associate_buddy emptyReg 2 ⟨3, 2, some 3⟩ "sip:alice@example.com") (-1)
        (some "sip:alice@example.com") = some ⟨3, 2, some 3⟩ :=
  ⟨buddy_uri_lookup_user_host_only
      (associate_buddy emptyReg 2 ⟨3, 2, some 3⟩ "sip:alice@example.com") (-1)
      "sip:alice@example.com:5060;transport=tcp" "sip:alice@example.com"
      (by decide) (by decide) rfl rfl,
   rfl⟩

/-- C9: `_disassociate_buddy` attempts the `buddy_by_uri` removal under
the buddy's full URI string, but `_associate_buddy` keys that map by
`(user, host)` tuples; as long as every key of the map is such a tuple,
the removal misses and `buddy_by_uri` is left unchanged (so URI-based
lookup can still return a deregistered buddy). -/
theorem disassociate_buddy_keeps_uri_map (st : RegState) (b : WObj) (uri : String)
    (hkeys : ∀ k ∈ st.buddy_by_uri.map Prod.fst, k.isPair) :
    (disassociate_buddy st b uri).buddy_by_uri = st.buddy_by_uri := by
  have hraw : dictLookup st.buddy_by_uri (.raw uri) = none := by
    apply dictLookup_eq_none_of_not_mem
    intro hmem
    exact hkeys _ hmem
  by_cases hc : lookup_buddy st b.id none = some b
  · simp only [disassociate_buddy, if_pos hc]
    rw [if_neg]
    simp [dictHasKey, hraw]
  · simp only [disassociate_buddy, if_neg hc]
    rw [if_neg]
    simp [dictHasKey, hraw]

/-- Witness for C9: register buddy `bob@example.com`, deregister it;
the URI map still holds it and URI-based lookup still returns it. -/
theorem disassociate_buddy_keeps_uri_map_witness :
    (disassociate_buddy (associate_buddy emptyReg 2 ⟨3, 2, some 3⟩ "sip:bob@example.com")
        ⟨3, 2, some 3⟩ "sip:bob@example.com").buddy_by_uri
      = (associate_buddy emptyReg 2 ⟨3, 2, some 3⟩ "sip:bob@example.com").buddy_by_uri
    ∧ lookup_buddy
        (disassociate_buddy (associate_buddy emptyReg 2 ⟨3, 2, some 3⟩ "sip:bob@example.com")
          ⟨3, 2, some 3⟩ "sip:bob@example.com") (-1) (some "sip:bob@example.com")
      = some ⟨3, 2, some 3⟩ :=
  ⟨disassociate_buddy_keeps_uri_map
      (associate_buddy emptyReg 2 ⟨3, 2, some 3⟩ "sip:bob@example.com")
      ⟨3, 2, some 3⟩ "sip:bob@example.com" (by decide),
   rfl⟩

end Pjsua
